import Mathlib

/-!
Verification development for the usn-journal-rs crate.

The definitions below are a shallow embedding of the crate's core algorithms:

* byte-level decoding of USN_RECORD_V2 records (src/journal.rs, src/mft.rs),
  with buffers modelled as lists of byte values and machine integers as Nat
  or Int with explicit two's-complement reinterpretation where the source
  transmutes unsigned bytes to signed fields;
* FILETIME conversion (src/time.rs), with std::time::SystemTime modelled as
  a signed count of nanoseconds relative to the Unix epoch;
* the buffered record-stream walkers UsnJournalIter and MftIter
  (find_next_entry / get_data / next), with the DeviceIoControl channel
  modelled as a function from the request structure to a device result;
* the path resolver (src/path.rs), with std::path::PathBuf modelled as a
  volume root plus a list of path components, and the lru crate's LruCache
  modelled as a capacity plus a recency-ordered association list.
-/

/-! ## Byte-level primitives -/

/-- Little-endian interpretation of a list of byte values. -/
def bytesToNatLE : List Nat → Nat
  | [] => 0
  | b :: bs => b + 256 * bytesToNatLE bs

/-- Extract the sub-list of len bytes starting at off. -/
def readBytes (buf : List Nat) (off len : Nat) : List Nat :=
  (buf.drop off).take len

/-- Read an unsigned 16-bit little-endian value at a byte offset. -/
def readU16 (buf : List Nat) (off : Nat) : Nat :=
  bytesToNatLE (readBytes buf off 2)

/-- Read an unsigned 32-bit little-endian value at a byte offset. -/
def readU32 (buf : List Nat) (off : Nat) : Nat :=
  bytesToNatLE (readBytes buf off 4)

/-- Read an unsigned 64-bit little-endian value at a byte offset. -/
def readU64 (buf : List Nat) (off : Nat) : Nat :=
  bytesToNatLE (readBytes buf off 8)

/-- Reinterpret an unsigned 64-bit value as a signed i64 (two's complement). -/
def toI64 (n : Nat) : Int :=
  if n < 2 ^ 63 then (n : Int) else (n : Int) - 2 ^ 64

/-! ## USN_RECORD_V2

Field offsets follow the Windows USN_RECORD_V2 layout used by the source:
RecordLength at 0, MajorVersion at 4, MinorVersion at 6,
FileReferenceNumber at 8, ParentFileReferenceNumber at 16, Usn at 24,
TimeStamp at 32, Reason at 40, SourceInfo at 44, SecurityId at 48,
FileAttributes at 52, FileNameLength at 56, FileNameOffset at 58 and the
fixed FileName array field at byte 60. -/

structure UsnRecordV2 where
  recordLength : Nat
  majorVersion : Nat
  minorVersion : Nat
  fileReferenceNumber : Nat
  parentFileReferenceNumber : Nat
  usn : Int
  timeStamp : Int
  reason : Nat
  sourceInfo : Nat
  securityId : Nat
  fileAttributes : Nat
  fileNameLength : Nat
  fileNameOffset : Nat
  /-- Code units visible through the record's fixed FileName field, which
  sits at byte 60 of the record; this is what the Rust code reads via
  record.FileName.as_ptr() with length FileNameLength / 2. -/
  fileName : List Nat
  deriving Repr, DecidableEq

/-- View of a USN_RECORD_V2 at byte offset off of a buffer, as obtained by
the source's pointer cast of buffer.as_ptr().offset(offset). -/
def parseRecord (buf : List Nat) (off : Nat) : UsnRecordV2 :=
  let fnl := readU16 buf (off + 56)
  { recordLength := readU32 buf off
    majorVersion := readU16 buf (off + 4)
    minorVersion := readU16 buf (off + 6)
    fileReferenceNumber := readU64 buf (off + 8)
    parentFileReferenceNumber := readU64 buf (off + 16)
    usn := toI64 (readU64 buf (off + 24))
    timeStamp := toI64 (readU64 buf (off + 32))
    reason := readU32 buf (off + 40)
    sourceInfo := readU32 buf (off + 44)
    securityId := readU32 buf (off + 48)
    fileAttributes := readU32 buf (off + 52)
    fileNameLength := fnl
    fileNameOffset := readU16 buf (off + 58)
    fileName := (List.range (fnl / 2)).map (fun i => readU16 buf (off + 60 + 2 * i)) }

/-- Modelled from the spec: the record format's documentation places the
name at FileNameOffset bytes from the record start (FileNameLength / 2
UTF-16 code units), not at the fixed FileName field position. This
definition follows the spec's words and is compared against the decoder
embedded from the source. -/
def specRecordFileName (buf : List Nat) (off : Nat) : List Nat :=
  let fnl := readU16 buf (off + 56)
  let fno := readU16 buf (off + 58)
  (List.range (fnl / 2)).map (fun i => readU16 buf (off + fno + 2 * i))

/-! ## Time conversion (src/time.rs)

std::time::SystemTime is modelled as an Int counting nanoseconds relative
to the Unix epoch (negative values lie before 1970). -/

/-- Nanoseconds from the Unix epoch to 1601-01-01T00:00:00Z, i.e. the
Windows epoch expressed in the SystemTime model. -/
def windowsEpochUnixNanos : Int := -11644473600 * 1000000000

/-- The SystemTime::UNIX_EPOCH constant in the model. -/
def unixEpochNanos : Int := 0

/-- Embedding of time::filetime_to_systemtime: rejects negative tick
values, otherwise splits the tick count into whole seconds and a
100-nanosecond remainder and adds the result to the Windows epoch. -/
def filetimeToSystemtime (filetime : Int) : Except String Int :=
  if filetime < 0 then
    .error ("FILETIME cannot be negative: " ++ toString filetime)
  else
    let filetimeU64 : Nat := filetime.toNat
    let secsSinceWindowsEpoch : Nat := filetimeU64 / 10000000
    let nanosRemainder : Nat := (filetimeU64 % 10000000) * 100
    .ok (windowsEpochUnixNanos + (secsSinceWindowsEpoch : Int) * 1000000000 +
      (nanosRemainder : Int))

/-! ## Decoded entries -/

/-- Embedding of journal::UsnEntry; the file name is kept as the list of
UTF-16 code units (OsString::from_wide preserves code units verbatim). -/
structure UsnEntryM where
  usn : Int
  time : Int
  fid : Nat
  parentFid : Nat
  reason : Nat
  sourceInfo : Nat
  fileName : List Nat
  fileAttributes : Nat
  deriving Repr, DecidableEq

/-- Embedding of UsnEntry::new: decodes the record fields, converting the
timestamp with filetime_to_systemtime and falling back to UNIX_EPOCH on
error; the name is taken from the record's fixed FileName field. -/
def usnEntryNew (record : UsnRecordV2) : UsnEntryM :=
  { usn := record.usn
    time := match filetimeToSystemtime record.timeStamp with
      | .ok t => t
      | .error _ => unixEpochNanos
    fid := record.fileReferenceNumber
    parentFid := record.parentFileReferenceNumber
    reason := record.reason
    sourceInfo := record.sourceInfo
    fileName := record.fileName
    fileAttributes := record.fileAttributes }

/-- Embedding of mft::MftEntry. -/
structure MftEntryM where
  usn : Int
  fid : Nat
  parentFid : Nat
  fileName : List Nat
  fileAttributes : Nat
  deriving Repr, DecidableEq

/-- Embedding of MftEntry::new. -/
def mftEntryNew (record : UsnRecordV2) : MftEntryM :=
  { usn := record.usn
    fid := record.fileReferenceNumber
    parentFid := record.parentFileReferenceNumber
    fileName := record.fileName
    fileAttributes := record.fileAttributes }

/-! ## Journal iterator (src/journal.rs) -/

/-- Crate constant DEFAULT_BUFFER_SIZE (64 KiB). -/
def DEFAULT_BUFFER_SIZE : Nat := 64 * 1024

/-- Crate constant USN_REASON_MASK_ALL. -/
def USN_REASON_MASK_ALL : Nat := 0xFFFFFFFF

/-- Embedding of journal::EnumOptions. -/
structure EnumOptionsM where
  startUsn : Int
  reasonMask : Nat
  onlyOnClose : Bool
  timeout : Nat
  waitForMore : Bool
  bufferSize : Nat
  deriving Repr, DecidableEq

/-- Embedding of EnumOptions::default. -/
def enumOptionsDefault : EnumOptionsM :=
  { startUsn := 0
    reasonMask := USN_REASON_MASK_ALL
    onlyOnClose := false
    timeout := 0
    waitForMore := false
    bufferSize := DEFAULT_BUFFER_SIZE }

/-- Mutable state of UsnJournalIter (volume handle omitted: it only routes
the device call, which is modelled by the channel function). -/
structure JIterState where
  journalId : Nat
  buffer : List Nat
  bytesRead : Nat
  offset : Nat
  nextStartUsn : Int
  reasonMask : Nat
  returnOnlyOnClose : Nat
  timeout : Nat
  bytesToWaitFor : Nat
  deriving Repr, DecidableEq

/-- Embedding of READ_USN_JOURNAL_DATA_V0, the input of the journal bulk
read. -/
structure ReadUsnJournalData where
  startUsn : Int
  reasonMask : Nat
  returnOnlyOnClose : Nat
  timeout : Nat
  bytesToWaitFor : Nat
  usnJournalId : Nat
  deriving Repr, DecidableEq

/-- Request built by UsnJournalIter::get_data from the iterator state. -/
def jMkRequest (s : JIterState) : ReadUsnJournalData :=
  { startUsn := s.nextStartUsn
    reasonMask := s.reasonMask
    returnOnlyOnClose := s.returnOnlyOnClose
    timeout := s.timeout
    bytesToWaitFor := s.bytesToWaitFor
    usnJournalId := s.journalId }

/-- Outcome of one DeviceIoControl bulk read: on success the buffer
contents after the call and the bytes-returned count, otherwise the
Windows error code. -/
inductive DeviceResult where
  | ok (buf : List Nat) (bytesRead : Nat)
  | err (code : Int)
  deriving Repr, DecidableEq

/-- The ERROR_HANDLE_EOF Windows error code (38). -/
def errorHandleEof : Int := 38

/-- Embedding of UsnJournalIter::get_data: issues the bulk read with the
current continuation cursor; an ERROR_HANDLE_EOF failure becomes
Ok(false), any other failure propagates, success refreshes buffer and
bytes_read and returns Ok(true). -/
def jGetData (ch : ReadUsnJournalData → DeviceResult) (s : JIterState) :
    Except Int (Bool × JIterState) :=
  match ch (jMkRequest s) with
  | .ok buf n => .ok (true, { s with buffer := buf, bytesRead := n })
  | .err code =>
    if code = errorHandleEof then .ok (false, s) else .error code

/-- Embedding of UsnJournalIter::find_next_entry: if offset < bytes_read,
decode the record at offset and advance offset by its reported length;
otherwise refill via get_data, capture the continuation USN from byte 0 of
the fresh buffer, set offset past the 8-byte cursor, and decode there if
any bytes remain. -/
def jFindNextEntry (ch : ReadUsnJournalData → DeviceResult) (s : JIterState) :
    Except Int (Option UsnRecordV2 × JIterState) :=
  if s.offset < s.bytesRead then
    let record := parseRecord s.buffer s.offset
    .ok (some record, { s with offset := s.offset + record.recordLength })
  else
    match jGetData ch s with
    | .error e => .error e
    | .ok (false, s1) => .ok (none, s1)
    | .ok (true, s1) =>
      let s2 := { s1 with nextStartUsn := toI64 (readU64 s1.buffer 0), offset := 8 }
      if s2.offset < s2.bytesRead then
        let record := parseRecord s2.buffer s2.offset
        .ok (some record, { s2 with offset := s2.offset + record.recordLength })
      else
        .ok (none, s2)

/-- Embedding of the Iterator::next implementation for UsnJournalIter:
a found record is yielded as Ok(UsnEntry::new(record)), end of data ends
the iteration with None, and an error is yielded as an error item. -/
def usnIterNext (ch : ReadUsnJournalData → DeviceResult) (s : JIterState) :
    Option (Except Int UsnEntryM) × JIterState :=
  match jFindNextEntry ch s with
  | .ok (some record, s1) => (some (.ok (usnEntryNew record)), s1)
  | .ok (none, s1) => (none, s1)
  | .error e => (some (.error e), s)

/-- Embedding of UsnJournal::iter: the iterator state it constructs from
the queried journal id. -/
def usnJournalIterInit (journalId : Nat) : JIterState :=
  { journalId := journalId
    buffer := List.replicate DEFAULT_BUFFER_SIZE 0
    bytesRead := 0
    offset := 0
    nextStartUsn := 0
    reasonMask := USN_REASON_MASK_ALL
    returnOnlyOnClose := 0
    timeout := 0
    bytesToWaitFor := 1 }

/-- Embedding of UsnJournal::iter_with_options: the iterator state it
constructs from the queried journal id and the given options (booleans are
cast to integers as in the source). -/
def usnJournalIterWithOptions (journalId : Nat) (options : EnumOptionsM) : JIterState :=
  { journalId := journalId
    buffer := List.replicate options.bufferSize 0
    bytesRead := 0
    offset := 0
    nextStartUsn := options.startUsn
    reasonMask := options.reasonMask
    returnOnlyOnClose := if options.onlyOnClose then 1 else 0
    timeout := options.timeout
    bytesToWaitFor := if options.waitForMore then 1 else 0 }

/-! ## MFT iterator (src/mft.rs) -/

/-- Mutable state of MftIter. -/
structure MIterState where
  lowUsn : Int
  highUsn : Int
  buffer : List Nat
  bytesRead : Nat
  offset : Nat
  nextStartFid : Nat
  deriving Repr, DecidableEq

/-- Embedding of MFT_ENUM_DATA_V0, the input of the MFT bulk read. -/
structure MftEnumData where
  startFileReferenceNumber : Nat
  lowUsn : Int
  highUsn : Int
  deriving Repr, DecidableEq

/-- Request built by MftIter::get_data from the iterator state. -/
def mMkRequest (s : MIterState) : MftEnumData :=
  { startFileReferenceNumber := s.nextStartFid
    lowUsn := s.lowUsn
    highUsn := s.highUsn }

/-- Embedding of MftIter::get_data. -/
def mGetData (ch : MftEnumData → DeviceResult) (s : MIterState) :
    Except Int (Bool × MIterState) :=
  match ch (mMkRequest s) with
  | .ok buf n => .ok (true, { s with buffer := buf, bytesRead := n })
  | .err code =>
    if code = errorHandleEof then .ok (false, s) else .error code

/-- Embedding of MftIter::find_next_entry: same walk shape as the journal
variant, with the continuation cursor read from byte 0 as a u64 file id. -/
def mFindNextEntry (ch : MftEnumData → DeviceResult) (s : MIterState) :
    Except Int (Option UsnRecordV2 × MIterState) :=
  if s.offset < s.bytesRead then
    let record := parseRecord s.buffer s.offset
    .ok (some record, { s with offset := s.offset + record.recordLength })
  else
    match mGetData ch s with
    | .error e => .error e
    | .ok (false, s1) => .ok (none, s1)
    | .ok (true, s1) =>
      let s2 := { s1 with nextStartFid := readU64 s1.buffer 0, offset := 8 }
      if s2.offset < s2.bytesRead then
        let record := parseRecord s2.buffer s2.offset
        .ok (some record, { s2 with offset := s2.offset + record.recordLength })
      else
        .ok (none, s2)

/-- Embedding of the Iterator::next implementation for MftIter. -/
def mftIterNext (ch : MftEnumData → DeviceResult) (s : MIterState) :
    Option (Except Int MftEntryM) × MIterState :=
  match mFindNextEntry ch s with
  | .ok (some record, s1) => (some (.ok (mftEntryNew record)), s1)
  | .ok (none, s1) => (none, s1)
  | .error e => (some (.error e), s)

/-! ## Path model (std::path::PathBuf on Windows)

A path is a volume root (drive prefix such as "C:\", kept verbatim) plus
the list of components after it. PathBuf::join with a relative argument
appends the argument's components, where splitting drops empty components
and "." exactly as Path::components does; every use of join in the claims
and in the source under consideration passes a relative argument.
Path::file_name returns the last component unless the path has none or
ends in "..". -/

/-- Split a character list at path separators; on Windows std::path
treats both the backslash and the forward slash as separators. -/
def splitSepAux : List Char → List Char → List String
  | [], acc => [String.mk acc.reverse]
  | c :: cs, acc =>
    if c = '\\' ∨ c = '/' then String.mk acc.reverse :: splitSepAux cs []
    else splitSepAux cs (c :: acc)

/-- Component list of a relative path string: split at separators, then
drop empty components and ".", as Path::components does on Windows. -/
def splitName (s : String) : List String :=
  (splitSepAux s.data []).filter (fun t => t ≠ "" && t ≠ ".")

/-- Model of std::path::PathBuf: volume root plus components. -/
structure WPath where
  root : String
  comps : List String
  deriving Repr, DecidableEq

/-- Model of PathBuf::join (with Path::push) for a relative argument. -/
def WPath.join (p : WPath) (name : String) : WPath :=
  { p with comps := p.comps ++ splitName name }

/-- Model of Path::file_name: the last component, unless there is none or
the path terminates in "..". -/
def WPath.fileNameOf (p : WPath) : Option String :=
  match p.comps.getLast? with
  | none => none
  | some s => if s = ".." then none else some s

/-! ## LRU cache (lru::LruCache as used by src/path.rs)

The cache is a capacity plus an association list ordered most-recent
first. get promotes a hit to the front, put inserts or updates at the
front and evicts the least-recently-used tail entry when a new key is
inserted at capacity, pop removes a key. -/

structure LruCacheM where
  cap : Nat
  entries : List (Nat × WPath × String)
  deriving Repr, DecidableEq

/-- Read-only lookup of a key's value (no recency change); used to state
properties. -/
def LruCacheM.lookup (c : LruCacheM) (k : Nat) : Option (WPath × String) :=
  (c.entries.find? (fun p => p.1 == k)).map (fun p => p.2)

/-- Whether the cache currently holds key k. -/
def LruCacheM.containsKey (c : LruCacheM) (k : Nat) : Bool :=
  c.entries.any (fun p => p.1 == k)

/-- Model of LruCache::get: a hit returns the value and moves the entry to
the most-recent position; a miss leaves the cache unchanged. -/
def LruCacheM.get (c : LruCacheM) (k : Nat) : Option (WPath × String) × LruCacheM :=
  match c.entries.find? (fun p => p.1 == k) with
  | none => (none, c)
  | some p =>
    (some p.2, { c with entries := (k, p.2) :: c.entries.filter (fun q => q.1 != k) })

/-- Model of LruCache::pop: removes the key (the source discards the
returned value). -/
def LruCacheM.pop (c : LruCacheM) (k : Nat) : LruCacheM :=
  { c with entries := c.entries.filter (fun q => q.1 != k) }

/-- Model of LruCache::put: an existing key is updated and promoted; a new
key is inserted at the front, evicting the least-recently-used entry when
the cache is at capacity. -/
def LruCacheM.put (c : LruCacheM) (k : Nat) (v : WPath × String) : LruCacheM :=
  if c.entries.any (fun p => p.1 == k) then
    { c with entries := (k, v) :: c.entries.filter (fun q => q.1 != k) }
  else if c.cap ≤ c.entries.length then
    { c with entries := (k, v) :: c.entries.dropLast }
  else
    { c with entries := (k, v) :: c.entries }

/-- An empty cache of the given capacity (PathResolver::new_with_cache
uses capacity 4096). -/
def emptyCache (cap : Nat) : LruCacheM := ⟨cap, []⟩

/-! ## Path resolution (src/path.rs)

file_id_to_path performs a system lookup; it is an external collaborator
and is modelled as a function from file id to an optional path (a failed
Result collapses to none, which is how both resolvers consume it). -/

/-- Embedding of path::resolve_path (the no-cache variant): resolve the
parent and join the name; if the parent lookup fails, fall back to
resolving the entry's own id; otherwise fail. -/
def resolvePath (lk : Nat → Option WPath) (fid parentFid : Nat)
    (fileName : String) : Option WPath :=
  match lk parentFid with
  | some resolvedParentPath => some (resolvedParentPath.join fileName)
  | none =>
    match lk fid with
    | some resolvedPath => some resolvedPath
    | none => none

/-- Steps 3, 4 and 8 of resolve_path_with_cache: join the parent path with
the entry name, cache the result when the entry is a directory, and return
the candidate path. -/
def finishResolve (fid : Nat) (fileName : String) (isDir : Bool)
    (cache : LruCacheM) (parentDirPath : WPath) : Option WPath × LruCacheM :=
  let currentPath := parentDirPath.join fileName
  let cache1 := if isDir then cache.put fid (currentPath, fileName) else cache
  (some currentPath, cache1)

/-- Step 2 of resolve_path_with_cache: obtain the parent directory path
from the cache, else from the system lookup (caching it keyed by the
parent id with the path's terminal component as its name), else fail. -/
def resolveViaParent (lk : Nat → Option WPath) (fid parentFid : Nat)
    (fileName : String) (isDir : Bool) (cache : LruCacheM) :
    Option WPath × LruCacheM :=
  match cache.get parentFid with
  | (some (cachedParentPath, _), c1) =>
    finishResolve fid fileName isDir c1 cachedParentPath
  | (none, c1) =>
    match lk parentFid with
    | some resolvedParentPath =>
      let parentActualName := (resolvedParentPath.fileNameOf).getD ""
      let c2 := c1.put parentFid (resolvedParentPath, parentActualName)
      finishResolve fid fileName isDir c2 resolvedParentPath
    | none => (none, c1)

/-- Embedding of path::resolve_path_with_cache: step 1 consults the cache
for the entry's own id, returning the cached path when the cached name
matches and evicting the stale entry when it differs, then resolves via
the parent. -/
def resolvePathWithCache (lk : Nat → Option WPath) (fid parentFid : Nat)
    (fileName : String) (isDir : Bool) (cache : LruCacheM) :
    Option WPath × LruCacheM :=
  match cache.get fid with
  | (some (cachedPath, cachedFileName), c1) =>
    if cachedFileName = fileName then (some cachedPath, c1)
    else resolveViaParent lk fid parentFid fileName isDir (c1.pop fid)
  | (none, c1) => resolveViaParent lk fid parentFid fileName isDir c1

/-! ## Sequences of cached resolve operations (for the cache invariant) -/

/-- One cached resolve call: the entry fields together with the system
lookup in effect during the call. -/
structure ResolveOp where
  lk : Nat → Option WPath
  fid : Nat
  parentFid : Nat
  name : String
  isDir : Bool

/-- Cache state after one cached resolve call. -/
def applyOp (c : LruCacheM) (op : ResolveOp) : LruCacheM :=
  (resolvePathWithCache op.lk op.fid op.parentFid op.name op.isDir c).2

/-- Cache state after a sequence of cached resolve calls. -/
def runOps (c : LruCacheM) (ops : List ResolveOp) : LruCacheM :=
  ops.foldl applyOp c

/-- The stored name of every cache entry equals the terminal component of
its stored path (empty string when the path has none). -/
def cacheInv (c : LruCacheM) : Prop :=
  ∀ e ∈ c.entries, e.2.2 = (e.2.1.fileNameOf).getD ""

/-- A single normal path component: splitting it yields itself, and it is
not the parent-directory component. -/
def isNormalName (s : String) : Prop :=
  splitName s = [s] ∧ s ≠ ".."

instance (s : String) : Decidable (isNormalName s) := by
  unfold isNormalName
  infer_instance

/-- Embedding of Mft::iter: the iterator state it constructs (low 0, high
i64::MAX, default buffer, cursor 0). -/
def mftIterInit : MIterState :=
  { lowUsn := 0
    highUsn := 2 ^ 63 - 1
    buffer := List.replicate DEFAULT_BUFFER_SIZE 0
    bytesRead := 0
    offset := 0
    nextStartFid := 0 }

/-! ## Concrete data used by witnesses and counterexamples -/

/-- A 24-byte bulk-read result: continuation cursor 99 in bytes 0..7,
followed by one record at byte 8 whose reported length is 16. -/
def c1buf : List Nat :=
  [99, 0, 0, 0, 0, 0, 0, 0, 16, 0, 0, 0] ++ List.replicate 12 0

/-- A journal channel that always returns c1buf with 24 bytes read. -/
def chC1J : ReadUsnJournalData → DeviceResult := fun _ => .ok c1buf 24

/-- An MFT channel that always returns c1buf with 24 bytes read. -/
def chC1M : MftEnumData → DeviceResult := fun _ => .ok c1buf 24

/-- A journal channel that always reports ERROR_HANDLE_EOF. -/
def chEofJ : ReadUsnJournalData → DeviceResult := fun _ => .err errorHandleEof

/-- An MFT channel that always reports ERROR_HANDLE_EOF. -/
def chEofM : MftEnumData → DeviceResult := fun _ => .err errorHandleEof

/-- A journal channel that always fails with error code 5
(ERROR_ACCESS_DENIED). -/
def chErrJ : ReadUsnJournalData → DeviceResult := fun _ => .err 5

/-- A 16-byte buffer whose record at offset 0 reports length 64: the
reported length extends far past the filled portion. -/
def c2buf : List Nat := [64, 0, 0, 0] ++ List.replicate 12 0

/-- Journal iterator state holding c2buf with 16 bytes filled and the read
offset at the start of the corrupt record. -/
def sC2 : JIterState :=
  { journalId := 1
    buffer := c2buf
    bytesRead := 16
    offset := 0
    nextStartUsn := 0
    reasonMask := USN_REASON_MASK_ALL
    returnOnlyOnClose := 0
    timeout := 0
    bytesToWaitFor := 1 }

/-- MFT iterator state holding c2buf with 16 bytes filled. -/
def tC2 : MIterState :=
  { lowUsn := 0
    highUsn := 2 ^ 63 - 1
    buffer := c2buf
    bytesRead := 16
    offset := 0
    nextStartFid := 0 }

/-- A 68-byte USN_RECORD_V2 whose FileNameOffset field is 64 rather than
the fixed header size 60: record length 68, version 2.0, file id 1, parent
id 2, name length 4 bytes; the bytes at the fixed FileName position 60 are
the code units of "XY" and the bytes at the self-reported offset 64 are
the code units of "AB". -/
def c3buf : List Nat :=
  [68, 0, 0, 0, 2, 0, 0, 0,
   1, 0, 0, 0, 0, 0, 0, 0,
   2, 0, 0, 0, 0, 0, 0, 0,
   0, 0, 0, 0, 0, 0, 0, 0,
   0, 0, 0, 0, 0, 0, 0, 0,
   0, 0, 0, 0, 0, 0, 0, 0,
   0, 0, 0, 0, 0, 0, 0, 0,
   4, 0, 64, 0,
   88, 0, 89, 0,
   65, 0, 66, 0]

/-- A system lookup that resolves only file id 1 (to C:\orphan.txt);
id 2, used as a parent id, fails. -/
def lkC8 : Nat → Option WPath :=
  fun k => if k = 1 then some ⟨"C:\\", ["orphan.txt"]⟩ else none

/-- A system lookup that always fails. -/
def lkNone : Nat → Option WPath := fun _ => none

/-- A system lookup that resolves only file id 2, to C:\Old. -/
def lkC10 : Nat → Option WPath :=
  fun k => if k = 2 then some ⟨"C:\\", ["Old"]⟩ else none

/-- One cached resolve of a directory entry named ".." under parent 2. -/
def opsC10 : List ResolveOp := [⟨lkC10, 1, 2, "..", true⟩]

/-- One cached resolve of a directory entry named "sub" under parent 2. -/
def opsC10w : List ResolveOp := [⟨lkC10, 1, 2, "sub", true⟩]

/-- Cache state for the rename-staleness scenario: id 10 maps to
(C:\Old\Name, "Name") and the parent id 20 maps to (C:\Old, "Old"). -/
def cacheC5 : LruCacheM :=
  ⟨4096, [(10, ⟨"C:\\", ["Old", "Name"]⟩, "Name"),
          (20, ⟨"C:\\", ["Old"]⟩, "Old")]⟩

/-- Cache state holding only the parent id 20 mapped to C:\Documents. -/
def cacheC7 : LruCacheM :=
  ⟨4096, [(20, ⟨"C:\\", ["Documents"]⟩, "Documents")]⟩

/-! ## Helper lemmas about the cache's association list -/

theorem find?_key_filter_ne (l : List (Nat × WPath × String)) (k k2 : Nat)
    (h : k2 ≠ k) :
    (l.filter (fun q => q.1 != k)).find? (fun p => p.1 == k2) =
      l.find? (fun p => p.1 == k2) := by
  induction l with
  | nil => rfl
  | cons a t ih =>
    rcases eq_or_ne a.1 k with hk | hk
    · have hne : (a.1 == k2) = false := beq_eq_false_iff_ne.mpr (by
        rw [hk]; exact fun hh => h hh.symm)
      have hfk : (a.1 != k) = false := by simp [bne, hk]
      simp [List.filter_cons, hfk, List.find?_cons, hne, ih]
    · have hfk : (a.1 != k) = true := by simp [bne, hk]
      rcases eq_or_ne a.1 k2 with h2 | h2
      · have heq : (a.1 == k2) = true := beq_iff_eq.mpr h2
        simp [List.filter_cons, hfk, List.find?_cons, heq]
      · have hne : (a.1 == k2) = false := beq_eq_false_iff_ne.mpr h2
        simp [List.filter_cons, hfk, List.find?_cons, hne, ih]

theorem any_key_filter_ne (l : List (Nat × WPath × String)) (k k2 : Nat)
    (h : k2 ≠ k) :
    (l.filter (fun q => q.1 != k)).any (fun p => p.1 == k2) =
      l.any (fun p => p.1 == k2) := by
  induction l with
  | nil => rfl
  | cons a t ih =>
    rcases eq_or_ne a.1 k with hk | hk
    · have hne : (a.1 == k2) = false := beq_eq_false_iff_ne.mpr (by
        rw [hk]; exact fun hh => h hh.symm)
      have hfk : (a.1 != k) = false := by simp [bne, hk]
      simp [List.filter_cons, hfk, List.any_cons, hne, ih]
    · have hfk : (a.1 != k) = true := by simp [bne, hk]
      simp [List.filter_cons, hfk, List.any_cons, ih]

theorem filter_ne_idem (l : List (Nat × WPath × String)) (k : Nat) :
    (l.filter (fun q => q.1 != k)).filter (fun q => q.1 != k) =
      l.filter (fun q => q.1 != k) := by
  rw [List.filter_filter]
  congr 1
  funext q
  exact Bool.and_self _

theorem find?_eq_none_of_contains_false (c : LruCacheM) (k : Nat)
    (h : c.containsKey k = false) :
    c.entries.find? (fun p => p.1 == k) = none := by
  rw [List.find?_eq_none]
  intro x hx
  simpa using (List.any_eq_false.mp h) x hx

theorem lookup_some_find? (c : LruCacheM) (k : Nat) (v : WPath × String)
    (h : c.lookup k = some v) :
    c.entries.find? (fun p => p.1 == k) = some (k, v) := by
  unfold LruCacheM.lookup at h
  cases hf : c.entries.find? (fun p => p.1 == k) with
  | none => rw [hf] at h; simp at h
  | some q =>
    rw [hf] at h
    obtain ⟨qk, qv⟩ := q
    have h1 : qk = k := by
      have := List.find?_some hf
      simpa using this
    have h2 : qv = v := by simpa using h
    rw [h1, h2]

theorem lookup_put_self (c : LruCacheM) (k : Nat) (v : WPath × String) :
    (c.put k v).lookup k = some v := by
  unfold LruCacheM.put LruCacheM.lookup
  have hself : (k == k) = true := beq_self_eq_true k
  split
  · simp [List.find?_cons, hself]
  · split
    · simp [List.find?_cons, hself]
    · simp [List.find?_cons, hself]

theorem containsKey_get (c : LruCacheM) (k k2 : Nat) :
    ((c.get k).2).containsKey k2 = c.containsKey k2 := by
  unfold LruCacheM.get LruCacheM.containsKey
  cases hf : c.entries.find? (fun p => p.1 == k) with
  | none => rfl
  | some q =>
    obtain ⟨qk, qv⟩ := q
    have h1 : qk = k := by simpa using List.find?_some hf
    rcases eq_or_ne k2 k with h2 | h2
    · subst h2
      have hmem : (qk, qv) ∈ c.entries := List.mem_of_find?_eq_some hf
      have : c.entries.any (fun p => p.1 == k2) = true := by
        apply List.any_eq_true.mpr
        exact ⟨(qk, qv), hmem, by simpa using h1⟩
      simp [List.any_cons, this]
    · have hhead : (k == k2) = false :=
        beq_eq_false_iff_ne.mpr (fun hh => h2 hh.symm)
      simp [List.any_cons, hhead, any_key_filter_ne _ _ _ h2]

theorem fileNameOf_join_normal (p : WPath) (name : String)
    (h : isNormalName name) : (p.join name).fileNameOf = some name := by
  obtain ⟨h1, h2⟩ := h
  unfold WPath.join WPath.fileNameOf
  rw [h1, List.getLast?_concat]
  simp [h2]

theorem cacheInv_get (c : LruCacheM) (k : Nat) (hc : cacheInv c) :
    cacheInv ((c.get k).2) := by
  unfold LruCacheM.get
  cases hf : c.entries.find? (fun p => p.1 == k) with
  | none => exact hc
  | some q =>
    intro e he
    simp only [List.mem_cons] at he
    rcases he with he | he
    · subst he
      exact hc q (List.mem_of_find?_eq_some hf)
    · exact hc e (List.mem_of_mem_filter he)

theorem cacheInv_pop (c : LruCacheM) (k : Nat) (hc : cacheInv c) :
    cacheInv (c.pop k) := by
  intro e he
  exact hc e (List.mem_of_mem_filter he)

theorem cacheInv_put (c : LruCacheM) (k : Nat) (v : WPath × String)
    (hc : cacheInv c) (hv : v.2 = (v.1.fileNameOf).getD "") :
    cacheInv (c.put k v) := by
  unfold LruCacheM.put
  split
  · intro e he
    simp only [List.mem_cons] at he
    rcases he with he | he
    · subst he; exact hv
    · exact hc e (List.mem_of_mem_filter he)
  · split
    · intro e he
      simp only [List.mem_cons] at he
      rcases he with he | he
      · subst he; exact hv
      · exact hc e (List.dropLast_subset _ he)
    · intro e he
      simp only [List.mem_cons] at he
      rcases he with he | he
      · subst he; exact hv
      · exact hc e he

theorem cacheInv_finishResolve (fid : Nat) (name : String) (isDir : Bool)
    (cache : LruCacheM) (parentPath : WPath) (hc : cacheInv cache)
    (hn : isNormalName name) :
    cacheInv (finishResolve fid name isDir cache parentPath).2 := by
  unfold finishResolve
  dsimp only
  split
  · exact cacheInv_put _ _ _ hc (by
      dsimp only
      rw [fileNameOf_join_normal _ _ hn]
      rfl)
  · exact hc

theorem cacheInv_resolveViaParent (lk : Nat → Option WPath)
    (fid parentFid : Nat) (name : String) (isDir : Bool)
    (cache : LruCacheM) (hc : cacheInv cache) (hn : isNormalName name) :
    cacheInv (resolveViaParent lk fid parentFid name isDir cache).2 := by
  unfold resolveViaParent
  have hg : cacheInv ((cache.get parentFid).2) := cacheInv_get _ _ hc
  rcases hgp : cache.get parentFid with ⟨r1, c1⟩
  rw [hgp] at hg
  cases r1 with
  | some pv =>
    obtain ⟨pp, pn⟩ := pv
    exact cacheInv_finishResolve _ _ _ _ _ hg hn
  | none =>
    cases hlk : lk parentFid with
    | some resolvedParentPath =>
      apply cacheInv_finishResolve
      · exact cacheInv_put _ _ _ hg rfl
      · exact hn
    | none => exact hg

theorem cacheInv_applyOp (c : LruCacheM) (op : ResolveOp)
    (hc : cacheInv c) (hn : isNormalName op.name) :
    cacheInv (applyOp c op) := by
  unfold applyOp resolvePathWithCache
  have hg : cacheInv ((c.get op.fid).2) := cacheInv_get _ _ hc
  rcases hgp : c.get op.fid with ⟨r1, c1⟩
  rw [hgp] at hg
  cases r1 with
  | some pv =>
    obtain ⟨pp, pn⟩ := pv
    dsimp only
    split
    · exact hg
    · exact cacheInv_resolveViaParent _ _ _ _ _ _ (cacheInv_pop _ _ hg) hn
  | none => exact cacheInv_resolveViaParent _ _ _ _ _ _ hg hn

/-! ## Claim theorems -/

/-- C6: filetime_to_systemtime maps tick 116,444,736,000,000,000 exactly
to the Unix epoch instant, maps tick 0 exactly to 1601-01-01T00:00:00Z
(the Unix epoch minus 11,644,473,600 seconds), and deterministically
returns an error for every negative tick value. -/
theorem c6_filetime_conversion :
    filetimeToSystemtime 116444736000000000 = .ok unixEpochNanos ∧
    filetimeToSystemtime 0 =
      .ok (unixEpochNanos - 11644473600 * 1000000000) ∧
    ∀ ft : Int, ft < 0 → ∃ msg, filetimeToSystemtime ft = .error msg := by
  refine ⟨rfl, rfl, ?_⟩
  intro ft h
  refine ⟨"FILETIME cannot be negative: " ++ toString ft, ?_⟩
  unfold filetimeToSystemtime
  rw [if_pos h]

/-- C6 witness: the negative-tick clause at tick -1. -/
theorem c6_filetime_conversion_witness :
    (-1 : Int) < 0 ∧
    ∃ msg, filetimeToSystemtime (-1) = .error msg :=
  ⟨by decide, c6_filetime_conversion.2.2 (-1) (by decide)⟩

/-- C9 counterexample: iter_with_options(EnumOptions::default()) sets
bytes_to_wait_for to 0, not to the claimed one-byte threshold 1. -/
theorem c9_counterexample :
    (usnJournalIterWithOptions 0 enumOptionsDefault).bytesToWaitFor = 0 ∧
    ¬ (usnJournalIterWithOptions 0 enumOptionsDefault).bytesToWaitFor = 1 := by
  exact ⟨rfl, by decide⟩

/-- C9 amended: UsnJournal::iter configures starting sequence 0, the
all-reasons mask, only-on-close disabled, timeout 0 and a one-byte wait
threshold; iter_with_options(EnumOptions::default()) configures the same
fields except that bytes_to_wait_for is 0, the default wait_for_more flag
cast to an integer. -/
theorem c9_default_iteration_config (journalId : Nat) :
    (usnJournalIterInit journalId).nextStartUsn = 0 ∧
    (usnJournalIterInit journalId).reasonMask = USN_REASON_MASK_ALL ∧
    (usnJournalIterInit journalId).returnOnlyOnClose = 0 ∧
    (usnJournalIterInit journalId).timeout = 0 ∧
    (usnJournalIterInit journalId).bytesToWaitFor = 1 ∧
    (usnJournalIterWithOptions journalId enumOptionsDefault).nextStartUsn = 0 ∧
    (usnJournalIterWithOptions journalId enumOptionsDefault).reasonMask =
      USN_REASON_MASK_ALL ∧
    (usnJournalIterWithOptions journalId enumOptionsDefault).returnOnlyOnClose = 0 ∧
    (usnJournalIterWithOptions journalId enumOptionsDefault).timeout = 0 ∧
    (usnJournalIterWithOptions journalId enumOptionsDefault).bytesToWaitFor = 0 :=
  ⟨rfl, rfl, rfl, rfl, rfl, rfl, rfl, rfl, rfl, rfl⟩

/-- C3: at the 68-byte record c3buf whose FileNameOffset field is 64, the
decoders embedded from UsnEntry::new and MftEntry::new read the name from
the fixed FileName position 60 and produce the code units of "XY", while
the format (and the API documentation quoted in the source's own comment)
places the name at the self-reported offset 64, where the code units of
"AB" lie; the produced name differs from the specified one. -/
theorem c3_name_offset_bug :
    (parseRecord c3buf 0).fileNameOffset = 64 ∧
    specRecordFileName c3buf 0 = [65, 66] ∧
    (usnEntryNew (parseRecord c3buf 0)).fileName = [88, 89] ∧
    (mftEntryNew (parseRecord c3buf 0)).fileName = [88, 89] ∧
    (usnEntryNew (parseRecord c3buf 0)).fileName ≠ specRecordFileName c3buf 0 := by
  refine ⟨rfl, rfl, rfl, rfl, by decide⟩

/-- C1: whenever a refill's bulk read returns data, both walkers store the
64-bit value at byte 0 of the fresh buffer as the continuation cursor
(journal: reinterpreted as a signed USN; MFT: a file id), every bulk-read
request carries the stored cursor, the read offset is set to exactly the
8-byte cursor size before any record is decoded, and any record decoded
after the refill is parsed at offset 8, never at the cursor bytes. -/
theorem c1_refill_cursor
    (chJ : ReadUsnJournalData → DeviceResult) (s : JIterState)
    (bufJ : List Nat) (nJ : Nat)
    (chM : MftEnumData → DeviceResult) (t : MIterState)
    (bufM : List Nat) (nM : Nat)
    (hsJ : ¬ s.offset < s.bytesRead)
    (hchJ : chJ (jMkRequest s) = .ok bufJ nJ)
    (hsM : ¬ t.offset < t.bytesRead)
    (hchM : chM (mMkRequest t) = .ok bufM nM) :
    (jMkRequest s).startUsn = s.nextStartUsn ∧
    jFindNextEntry chJ s =
      (if 8 < nJ then
        .ok (some (parseRecord bufJ 8),
          { s with
            buffer := bufJ
            bytesRead := nJ
            nextStartUsn := toI64 (readU64 bufJ 0)
            offset := 8 + (parseRecord bufJ 8).recordLength })
      else
        .ok (none,
          { s with
            buffer := bufJ
            bytesRead := nJ
            nextStartUsn := toI64 (readU64 bufJ 0)
            offset := 8 })) ∧
    (mMkRequest t).startFileReferenceNumber = t.nextStartFid ∧
    mFindNextEntry chM t =
      (if 8 < nM then
        .ok (some (parseRecord bufM 8),
          { t with
            buffer := bufM
            bytesRead := nM
            nextStartFid := readU64 bufM 0
            offset := 8 + (parseRecord bufM 8).recordLength })
      else
        .ok (none,
          { t with
            buffer := bufM
            bytesRead := nM
            nextStartFid := readU64 bufM 0
            offset := 8 })) := by
  refine ⟨rfl, ?_, rfl, ?_⟩
  · unfold jFindNextEntry jGetData
    rw [if_neg hsJ, hchJ]
  · unfold mFindNextEntry mGetData
    rw [if_neg hsM, hchM]

/-- C1 witness: a refill from the fresh journal and MFT iterator states
through a channel that returns the 24-byte buffer c1buf (cursor 99, one
record of reported length 16 at offset 8). -/
theorem c1_refill_cursor_witness :
    (¬ (usnJournalIterInit 7).offset < (usnJournalIterInit 7).bytesRead) ∧
    (¬ mftIterInit.offset < mftIterInit.bytesRead) ∧
    ((jMkRequest (usnJournalIterInit 7)).startUsn =
        (usnJournalIterInit 7).nextStartUsn ∧
      jFindNextEntry chC1J (usnJournalIterInit 7) =
        (if 8 < 24 then
          .ok (some (parseRecord c1buf 8),
            { (usnJournalIterInit 7) with
              buffer := c1buf
              bytesRead := 24
              nextStartUsn := toI64 (readU64 c1buf 0)
              offset := 8 + (parseRecord c1buf 8).recordLength })
        else
          .ok (none,
            { (usnJournalIterInit 7) with
              buffer := c1buf
              bytesRead := 24
              nextStartUsn := toI64 (readU64 c1buf 0)
              offset := 8 })) ∧
      (mMkRequest mftIterInit).startFileReferenceNumber =
        mftIterInit.nextStartFid ∧
      mFindNextEntry chC1M mftIterInit =
        (if 8 < 24 then
          .ok (some (parseRecord c1buf 8),
            { mftIterInit with
              buffer := c1buf
              bytesRead := 24
              nextStartFid := readU64 c1buf 0
              offset := 8 + (parseRecord c1buf 8).recordLength })
        else
          .ok (none,
            { mftIterInit with
              buffer := c1buf
              bytesRead := 24
              nextStartFid := readU64 c1buf 0
              offset := 8 }))) :=
  ⟨by decide, by decide,
    c1_refill_cursor chC1J (usnJournalIterInit 7) c1buf 24
      chC1M mftIterInit c1buf 24 (by decide) rfl (by decide) rfl⟩

/-- C2 counterexample: at state sC2 the buffer's record reports length 64
while only 16 bytes are filled; the journal walker still decodes it and
advances the offset to 64, so no offset + reported_length <= buffer_len
validation is performed before the reported length is trusted. -/
theorem c2_counterexample :
    jFindNextEntry chEofJ sC2 =
      .ok (some (parseRecord c2buf 0), { sC2 with offset := 64 }) ∧
    sC2.bytesRead < sC2.offset + (parseRecord sC2.buffer sC2.offset).recordLength := by
  exact ⟨rfl, by decide⟩

/-- C2 amended: whenever offset < bytes_read, both walkers decode the
record at offset and advance the offset by the record's self-reported
length unconditionally; only the offset < bytes_read comparison guards the
access, and no offset + reported_length <= buffer_len check is made, so a
corrupted reported length makes the walker use bytes past the filled
portion of the buffer. -/
theorem c2_unchecked_record_advance
    (chJ : ReadUsnJournalData → DeviceResult) (s : JIterState)
    (chM : MftEnumData → DeviceResult) (t : MIterState)
    (hsJ : s.offset < s.bytesRead) (hsM : t.offset < t.bytesRead) :
    jFindNextEntry chJ s =
      .ok (some (parseRecord s.buffer s.offset),
        { s with offset := s.offset + (parseRecord s.buffer s.offset).recordLength }) ∧
    mFindNextEntry chM t =
      .ok (some (parseRecord t.buffer t.offset),
        { t with offset := t.offset + (parseRecord t.buffer t.offset).recordLength }) := by
  constructor
  · unfold jFindNextEntry
    rw [if_pos hsJ]
  · unfold mFindNextEntry
    rw [if_pos hsM]

/-- C2 amended witness: the unchecked advance at the concrete corrupt
states sC2 and tC2. -/
theorem c2_unchecked_record_advance_witness :
    sC2.offset < sC2.bytesRead ∧ tC2.offset < tC2.bytesRead ∧
    (jFindNextEntry chEofJ sC2 =
      .ok (some (parseRecord sC2.buffer sC2.offset),
        { sC2 with offset := sC2.offset + (parseRecord sC2.buffer sC2.offset).recordLength }) ∧
    mFindNextEntry chEofM tC2 =
      .ok (some (parseRecord tC2.buffer tC2.offset),
        { tC2 with offset := tC2.offset + (parseRecord tC2.buffer tC2.offset).recordLength })) :=
  ⟨by decide, by decide,
    c2_unchecked_record_advance chEofJ sC2 chEofM tC2 (by decide) (by decide)⟩

/-- C4: at a refill point, an ERROR_HANDLE_EOF failure of the bulk read
makes the journal iterator's next return None with no error item, while
any other error code is yielded to the caller as an error item in the
sequence. -/
theorem c4_eof_termination
    (ch : ReadUsnJournalData → DeviceResult) (s : JIterState)
    (h : ¬ s.offset < s.bytesRead) :
    (ch (jMkRequest s) = .err errorHandleEof →
      usnIterNext ch s = (none, s)) ∧
    (∀ e : Int, ch (jMkRequest s) = .err e → e ≠ errorHandleEof →
      usnIterNext ch s = (some (.error e), s)) := by
  constructor
  · intro hch
    simp [usnIterNext, jFindNextEntry, jGetData, h, hch]
  · intro e hch he
    simp [usnIterNext, jFindNextEntry, jGetData, h, hch, he]

/-- C4 witness: from the fresh iterator state, an EOF channel ends the
iteration with None and a channel failing with code 5 yields the error
item. -/
theorem c4_eof_termination_witness :
    (¬ (usnJournalIterInit 3).offset < (usnJournalIterInit 3).bytesRead) ∧
    usnIterNext chEofJ (usnJournalIterInit 3) = (none, usnJournalIterInit 3) ∧
    usnIterNext chErrJ (usnJournalIterInit 3) =
      (some (.error 5), usnJournalIterInit 3) :=
  ⟨by decide,
    (c4_eof_termination chEofJ (usnJournalIterInit 3) (by decide)).1 rfl,
    (c4_eof_termination chErrJ (usnJournalIterInit 3) (by decide)).2 5 rfl
      (by decide)⟩

/-- C8 counterexample: with a system lookup that fails for the parent id 2
but resolves the entry's own id 1, the no-cache variant resolve_path does
not return None: it falls back to the entry's own id and returns
C:\orphan.txt. -/
theorem c8_counterexample :
    lkC8 2 = none ∧
    resolvePath lkC8 1 2 "orphan.txt" = some ⟨"C:\\", ["orphan.txt"]⟩ := by
  exact ⟨rfl, rfl⟩

/-- C8 amended: when the parent id is neither cached nor resolvable by the
system lookup, the cached resolver returns no path; the no-cache variant
resolve_path differs from the cached algorithm there: it falls back to the
system lookup of the entry's own id, so on parent-lookup failure it
returns exactly that fallback result and returns None only when both
lookups fail. -/
theorem c8_parent_lookup_failure :
    (∀ (lk : Nat → Option WPath) (c : LruCacheM) (fid parentFid : Nat)
      (name : String) (isDir : Bool),
      c.containsKey fid = false → c.containsKey parentFid = false →
      lk parentFid = none →
      (resolvePathWithCache lk fid parentFid name isDir c).1 = none) ∧
    (∀ (lk : Nat → Option WPath) (fid parentFid : Nat) (name : String),
      lk parentFid = none → resolvePath lk fid parentFid name = lk fid) := by
  constructor
  · intro lk c fid parentFid name isDir hfid hpar hlk
    unfold resolvePathWithCache resolveViaParent LruCacheM.get
    rw [find?_eq_none_of_contains_false c fid hfid]
    simp only [find?_eq_none_of_contains_false c parentFid hpar, hlk]
  · intro lk fid parentFid name hlk
    unfold resolvePath
    rw [hlk]
    cases lk fid <;> rfl

/-- C8 witness: the cached clause at an empty cache and the no-cache
clause, both under the always-failing lookup. -/
theorem c8_parent_lookup_failure_witness :
    (emptyCache 4096).containsKey 1 = false ∧
    (emptyCache 4096).containsKey 2 = false ∧
    lkNone 2 = none ∧
    (resolvePathWithCache lkNone 1 2 "n" false (emptyCache 4096)).1 = none ∧
    resolvePath lkNone 1 2 "n" = lkNone 1 :=
  ⟨by decide, by decide, rfl,
    c8_parent_lookup_failure.1 lkNone (emptyCache 4096) 1 2 "n" false
      (by decide) (by decide) rfl,
    c8_parent_lookup_failure.2 lkNone 1 2 "n" rfl⟩

theorem get_hit (c : LruCacheM) (k : Nat) (v : WPath × String)
    (h : c.entries.find? (fun p => p.1 == k) = some (k, v)) :
    c.get k = (some v,
      ⟨c.cap, (k, v) :: c.entries.filter (fun q => q.1 != k)⟩) := by
  unfold LruCacheM.get
  rw [h]

theorem get_miss (c : LruCacheM) (k : Nat)
    (h : c.entries.find? (fun p => p.1 == k) = none) :
    c.get k = (none, c) := by
  unfold LruCacheM.get
  rw [h]

/-- C5: from any cached resolver state holding id X at (C:\Old\Name,
"Name") and the parent id P at path C:\Old, resolving a directory entry
with id X, parent P and name "NewName" evicts the stale entry, resolves
against the cached parent path without consulting the system lookup
(the result holds for every lookup function), returns C:\Old\NewName, and
leaves the cache holding X at (C:\Old\NewName, "NewName"). -/
theorem c5_rename_staleness
    (lk : Nat → Option WPath) (c : LruCacheM) (X P : Nat) (pn : String)
    (hXP : X ≠ P)
    (hX : c.lookup X = some (⟨"C:\\", ["Old", "Name"]⟩, "Name"))
    (hP : c.lookup P = some (⟨"C:\\", ["Old"]⟩, pn)) :
    (resolvePathWithCache lk X P "NewName" true c).1 =
      some ⟨"C:\\", ["Old", "NewName"]⟩ ∧
    ((resolvePathWithCache lk X P "NewName" true c).2).lookup X =
      some (⟨"C:\\", ["Old", "NewName"]⟩, "NewName") := by
  have hfX := lookup_some_find? c X _ hX
  have hfP := lookup_some_find? c P _ hP
  have hPX : P ≠ X := fun h => hXP h.symm
  have hnames : ¬ (("Name" : String) = "NewName") := by decide
  have hfP2 : (c.entries.filter (fun q => q.1 != X)).find?
      (fun p => p.1 == P) = some (P, (⟨"C:\\", ["Old"]⟩, pn)) := by
    rw [find?_key_filter_ne _ _ _ hPX]
    exact hfP
  have hres : resolvePathWithCache lk X P "NewName" true c =
      finishResolve X "NewName" true
        ⟨c.cap, (P, ⟨"C:\\", ["Old"]⟩, pn) ::
          (c.entries.filter (fun q => q.1 != X)).filter
            (fun q => q.1 != P)⟩
        ⟨"C:\\", ["Old"]⟩ := by
    unfold resolvePathWithCache
    rw [get_hit c X _ hfX]
    dsimp only
    rw [if_neg hnames]
    unfold resolveViaParent LruCacheM.pop
    dsimp only
    rw [List.filter_cons]
    simp only [bne_self_eq_false, Bool.false_eq_true, if_false,
      filter_ne_idem]
    rw [get_hit ⟨c.cap, c.entries.filter (fun q => q.1 != X)⟩ P _ hfP2]
  constructor
  · rw [hres]
    rfl
  · rw [hres]
    exact lookup_put_self _ X _

/-- C5 witness: the rename-staleness scenario at the concrete cache
cacheC5 (ids 10 and 20) under the always-failing system lookup. -/
theorem c5_rename_staleness_witness :
    (10 : Nat) ≠ 20 ∧
    cacheC5.lookup 10 = some (⟨"C:\\", ["Old", "Name"]⟩, "Name") ∧
    cacheC5.lookup 20 = some (⟨"C:\\", ["Old"]⟩, "Old") ∧
    (resolvePathWithCache lkNone 10 20 "NewName" true cacheC5).1 =
      some ⟨"C:\\", ["Old", "NewName"]⟩ ∧
    ((resolvePathWithCache lkNone 10 20 "NewName" true cacheC5).2).lookup 10 =
      some (⟨"C:\\", ["Old", "NewName"]⟩, "NewName") :=
  ⟨by decide, by decide, by decide,
    (c5_rename_staleness lkNone cacheC5 10 20 "Old" (by decide)
      (by decide) (by decide)).1,
    (c5_rename_staleness lkNone cacheC5 10 20 "Old" (by decide)
      (by decide) (by decide)).2⟩

/-- C7: from any cached resolver state whose cache maps the parent id P to
C:\Documents and does not contain id X, resolving the entry with id X,
parent P and name newfile.txt as a non-directory returns
C:\Documents\newfile.txt and leaves the set of cached keys unchanged (in
particular X is not inserted); resolving the same entry as a directory
returns the same path and additionally caches X at (that path,
"newfile.txt"). -/
theorem c7_directory_only_caching
    (lk : Nat → Option WPath) (c : LruCacheM) (X P : Nat) (pn : String)
    (hX : c.containsKey X = false)
    (hP : c.lookup P = some (⟨"C:\\", ["Documents"]⟩, pn)) :
    (resolvePathWithCache lk X P "newfile.txt" false c).1 =
      some ⟨"C:\\", ["Documents", "newfile.txt"]⟩ ∧
    (∀ k, ((resolvePathWithCache lk X P "newfile.txt" false c).2).containsKey k =
      c.containsKey k) ∧
    (resolvePathWithCache lk X P "newfile.txt" true c).1 =
      some ⟨"C:\\", ["Documents", "newfile.txt"]⟩ ∧
    ((resolvePathWithCache lk X P "newfile.txt" true c).2).lookup X =
      some (⟨"C:\\", ["Documents", "newfile.txt"]⟩, "newfile.txt") := by
  have hfX := find?_eq_none_of_contains_false c X hX
  have hfP := lookup_some_find? c P _ hP
  have hres : ∀ isDir : Bool, resolvePathWithCache lk X P "newfile.txt" isDir c =
      finishResolve X "newfile.txt" isDir
        ⟨c.cap, (P, ⟨"C:\\", ["Documents"]⟩, pn) ::
          c.entries.filter (fun q => q.1 != P)⟩
        ⟨"C:\\", ["Documents"]⟩ := by
    intro isDir
    unfold resolvePathWithCache
    rw [get_miss c X hfX]
    dsimp only
    unfold resolveViaParent
    rw [get_hit c P _ hfP]
  refine ⟨?_, ?_, ?_, ?_⟩
  · rw [hres false]
    rfl
  · intro k
    rw [hres false]
    unfold finishResolve
    simp only [Bool.false_eq_true, if_false]
    have h2 := containsKey_get c P k
    rw [get_hit c P _ hfP] at h2
    exact h2
  · rw [hres true]
    rfl
  · rw [hres true]
    unfold finishResolve
    simp only [if_true]
    exact lookup_put_self _ X _

/-- C7 witness: the scenario at the concrete cache cacheC7 (parent id 20,
new id 10) under the always-failing system lookup. -/
theorem c7_directory_only_caching_witness :
    cacheC7.containsKey 10 = false ∧
    cacheC7.lookup 20 = some (⟨"C:\\", ["Documents"]⟩, "Documents") ∧
    (resolvePathWithCache lkNone 10 20 "newfile.txt" false cacheC7).1 =
      some ⟨"C:\\", ["Documents", "newfile.txt"]⟩ ∧
    ((resolvePathWithCache lkNone 10 20 "newfile.txt" false cacheC7).2).containsKey 10 =
      cacheC7.containsKey 10 ∧
    (resolvePathWithCache lkNone 10 20 "newfile.txt" true cacheC7).1 =
      some ⟨"C:\\", ["Documents", "newfile.txt"]⟩ ∧
    ((resolvePathWithCache lkNone 10 20 "newfile.txt" true cacheC7).2).lookup 10 =
      some (⟨"C:\\", ["Documents", "newfile.txt"]⟩, "newfile.txt") :=
  ⟨by decide, by decide,
    (c7_directory_only_caching lkNone cacheC7 10 20 "Documents"
      (by decide) (by decide)).1,
    (c7_directory_only_caching lkNone cacheC7 10 20 "Documents"
      (by decide) (by decide)).2.1 10,
    (c7_directory_only_caching lkNone cacheC7 10 20 "Documents"
      (by decide) (by decide)).2.2.1,
    (c7_directory_only_caching lkNone cacheC7 10 20 "Documents"
      (by decide) (by decide)).2.2.2⟩

/-- C9 amended witness: the configuration fields at journal id 0. -/
theorem c9_default_iteration_config_witness :
    (usnJournalIterInit 0).nextStartUsn = 0 ∧
    (usnJournalIterInit 0).reasonMask = USN_REASON_MASK_ALL ∧
    (usnJournalIterInit 0).returnOnlyOnClose = 0 ∧
    (usnJournalIterInit 0).timeout = 0 ∧
    (usnJournalIterInit 0).bytesToWaitFor = 1 ∧
    (usnJournalIterWithOptions 0 enumOptionsDefault).nextStartUsn = 0 ∧
    (usnJournalIterWithOptions 0 enumOptionsDefault).reasonMask =
      USN_REASON_MASK_ALL ∧
    (usnJournalIterWithOptions 0 enumOptionsDefault).returnOnlyOnClose = 0 ∧
    (usnJournalIterWithOptions 0 enumOptionsDefault).timeout = 0 ∧
    (usnJournalIterWithOptions 0 enumOptionsDefault).bytesToWaitFor = 0 :=
  c9_default_iteration_config 0
